import Mathlib

/-!
Shallow embedding of the AutoShade Studio per-image processing pipeline
(types.ts, App.tsx, services/geminiService.ts) and proofs about it.

JS strings are modelled as Lean `String` (or `List Char` where character-level
reasoning is needed); `File` objects are modelled by the only field the
embedded operations observe (the name, plus base64 payloads as `InlineData`);
the asynchronous React state updates are modelled as pure functions on the
`processedImages` list together with a step relation over the schedules the
event loop can produce.
-/

set_option maxHeartbeats 1000000

namespace AutoShade

/-! ### types.ts -/

inductive ProcessingStatus
  | pending
  | processing
  | done
  | error
deriving DecidableEq

inductive ProcessingMode
  | full
  | partialWall
  | turntableTint
  | tintTurntableOnly
deriving DecidableEq

inductive FloorEffect
  | none
  | desaturate
  | red
  | yellow
deriving DecidableEq

inductive TurntableTint
  | none
  | red
  | yellow
deriving DecidableEq

structure ProcessingOptions where
  floorEffect : FloorEffect
  matchReflections : Bool
  turntableTint : TurntableTint
deriving DecidableEq

/-- A JS `File`; the embedded operations only observe its `name`
(the binary payload is carried separately as `InlineData` once encoded). -/
structure JSFile where
  name : String
deriving DecidableEq

/-- Structure `ProcessedImage` from types.ts: `error?: string` is `Option String`,
`processedUrl: string | null` is `Option String`. -/
structure ProcessedImage where
  id : String
  originalFile : JSFile
  originalUrl : String
  processedUrl : Option String
  status : ProcessingStatus
  error : Option String
deriving DecidableEq

/-! ### geminiService.ts: prompt construction

The template literals below are transcribed verbatim from
services/geminiService.ts (apostrophes written as the escape `\x27`),
split at the `$(...)` interpolation points. -/

/-- JS string value of the `TurntableTint` union member, as interpolated
into the tint-turntable-only template literal. -/
def TurntableTint.jsName : TurntableTint → String
  | .none => "none"
  | .red => "red"
  | .yellow => "yellow"

def tintTurntableOnlyPromptPre : String :=
  "Your task is to perform a highly specific and subtle edit on the provided image of a car on a turntable. Follow these instructions precisely:\n1. Identify the circular rotating platform/turntable beneath the car.\n2. Apply a transparent "

def tintTurntableOnlyPromptPost : String :=
  " color overlay with exactly 15% opacity ONLY to the top surface of the turntable. The turntable\x27s original texture, details, and any shadows on it must remain clearly visible underneath the color tint.\n3. CRITICAL: You must NOT change anything else in the image. The car, the shadows, the walls, and the floor surrounding the turntable must remain completely untouched and identical to the original image.\nThe final output must be a single, high-resolution image that is identical to the input except for the subtle color tint on the turntable. Do not include any text, borders, or annotations."

def fullPrompt : String :=
  "Analyze the two images provided. The first image contains a car. The second image is a new background. Your task is to perform the following steps: \n1. Accurately isolate the car from its original background in the first image. \n2. Place the isolated car onto the new background provided in the second image. \n3. Generate a natural and realistic shadow for the car on the new background, making sure the shadow\x27s direction, softness, and intensity are consistent with the lighting conditions of the background. \n4. Blend the car seamlessly into the new environment to create a photorealistic composite image. \nThe final output must be a single, high-resolution composite image, aiming for 3000 pixels on the longest side. Do not include any text in the output."

def partialWallBasePrompt : String :=
  "Analyze the two images provided. The first image contains a car in its original setting (e.g., a studio). The second image is a new background/scene. Your task is to create a composite image by following these steps:\n1. In the first image, identify the car and the horizontal line that separates the floor from the wall/background.\n2. Keep the original floor from the first image. The car and its shadow on the floor must be preserved perfectly.\n3. Replace the original background area above the floor (the wall) with the new background from the second image. The new background should be realistically scaled and perspectively matched to the scene.\n4. Create a seamless, natural-looking transition between the retained floor and the new upper background.\n5. The car should remain in its original position on its original floor, but now set against the new background. Ensure the lighting on the car is consistent with the new background environment."

def floorDesaturateClauseBody : String :=
  "The original floor that is kept must be converted to black and white (fully desaturated). This is a critical requirement."

def floorRedClauseBody : String :=
  "Apply a transparent red color overlay with 15% opacity to the entire floor area that is being kept. The original floor texture and shadows must remain clearly visible beneath this subtle color tint. This is a critical requirement."

def floorYellowClauseBody : String :=
  "Apply a transparent yellow color overlay with 15% opacity to the entire floor area that is being kept. The original floor texture and shadows must remain clearly visible beneath this subtle color tint. This is a critical requirement."

def reflectionsClauseBody : String :=
  "Crucially, you must also meticulously adjust the reflections on the car\x27s bodywork, windows, and wheels to realistically mirror the new background environment. This is a critical requirement for a photorealistic result."

def turntableTintBasePrompt : String :=
  "Analyze the two images provided. The first image contains a car on a circular rotating platform/turntable. The second image is a new background. Your task is to create a composite image by following these strict steps:\n1. Precisely identify and isolate the car and the complete circular turntable it rests on from the original background.\n2. Preserve the car and the turntable perfectly.\n3. Replace the entire original background, including the floor surrounding the turntable and the walls, with the new background from the second image. The new background must appear seamlessly behind and around the turntable.\n4. Generate a natural, realistic shadow for the car on the turntable\x27s surface, ensuring it is consistent with the lighting of the new background.\n5. Create a photorealistic composite image."

def turntableRedClauseBody : String :=
  "CRITICAL INSTRUCTION: Apply a transparent red color overlay with exactly 15% opacity ONLY to the top surface of the turntable. The turntable\x27s original texture, details, and the car\x27s shadow must remain clearly visible underneath this color tint."

def turntableYellowClauseBody : String :=
  "CRITICAL INSTRUCTION: Apply a transparent yellow color overlay with exactly 15% opacity ONLY to the top surface of the turntable. The turntable\x27s original texture, details, and the car\x27s shadow must remain clearly visible underneath this color tint."

def closingClause : String :=
  "\nThe final output must be a single, high-resolution composite image, aiming for 3000 pixels on the longest side. Do not include any text, borders, or annotations."

/-- An optional clause as appended in the source:
a newline, the current instruction counter, `". "`, then the clause body
(mirrors the `\n$(instructionCounter). ...` template literals). -/
def numberedClause (instructionCounter : Nat) (body : String) : String :=
  "\n" ++ toString instructionCounter ++ ". " ++ body

/-- The prompt construction inlined in `processCarImage`
(geminiService.ts lines 31-110), the spec's Prompt Builder.
The `instructionCounter` starts at 6 after the five fixed steps of the
two composite templates and increments per appended optional clause. -/
def buildPrompt (mode : ProcessingMode) (options : ProcessingOptions) : String :=
  match mode with
  | .tintTurntableOnly =>
      tintTurntableOnlyPromptPre ++ options.turntableTint.jsName ++ tintTurntableOnlyPromptPost
  | .full => fullPrompt
  | .partialWall =>
      let step1 : String × Nat :=
        match options.floorEffect with
        | .desaturate => (partialWallBasePrompt ++ numberedClause 6 floorDesaturateClauseBody, 7)
        | .red => (partialWallBasePrompt ++ numberedClause 6 floorRedClauseBody, 7)
        | .yellow => (partialWallBasePrompt ++ numberedClause 6 floorYellowClauseBody, 7)
        | .none => (partialWallBasePrompt, 6)
      let step2 : String :=
        if options.matchReflections then
          step1.1 ++ numberedClause step1.2 reflectionsClauseBody
        else step1.1
      step2 ++ closingClause
  | .turntableTint =>
      let step1 : String :=
        match options.turntableTint with
        | .red => turntableTintBasePrompt ++ numberedClause 6 turntableRedClauseBody
        | .yellow => turntableTintBasePrompt ++ numberedClause 6 turntableYellowClauseBody
        | .none => turntableTintBasePrompt
      step1 ++ closingClause

/-! ### geminiService.ts: generation client

The network boundary is made explicit: the pure pre-network stage
(`buildRequestParts`) either fails fast or produces the request parts that
would be sent, and the pure post-network stage (`extractImageResult`)
consumes the backend response.  The thrown `Error` messages of the source
are classified by the spec's error taxonomy; `GenError.message` recovers
the exact thrown message. -/

/-- An inline binary payload tagged with its media type
(the result of `fileToBase64`, resp. an `inlineData` response part). -/
structure InlineData where
  mimeType : String
  data : String
deriving DecidableEq

/-- One part of a request or of a backend response: inline binary or text. -/
inductive Part
  | inlineData (d : InlineData)
  | text (s : String)
deriving DecidableEq

/-- One response candidate (`candidate.content.parts` in the source). -/
structure Candidate where
  parts : List Part
deriving DecidableEq

structure GenerateContentResponse where
  candidates : List Candidate
deriving DecidableEq

/-- The `@google/genai` SDK accessor `response.text` (external collaborator):
the concatenated text parts of the first candidate, or `none` when the first
candidate has no text part (or there is no candidate). -/
def GenerateContentResponse.text (r : GenerateContentResponse) : Option String :=
  match r.candidates with
  | [] => none
  | c :: _ =>
      let texts := c.parts.filterMap fun p =>
        match p with
        | .text s => some s
        | .inlineData _ => none
      if texts.isEmpty then none else some (String.join texts)

/-- The spec's error taxonomy for the generation client. -/
inductive GenError
  | missingInput
  | backendRefused (text : String)
  | noImageProduced
deriving DecidableEq

instance {ε α : Type} [DecidableEq ε] [DecidableEq α] : DecidableEq (Except ε α) :=
  fun x y =>
    match x, y with
    | .ok a, .ok b =>
        if h : a = b then .isTrue (by rw [h]) else .isFalse (by intro he; cases he; exact h rfl)
    | .error a, .error b =>
        if h : a = b then .isTrue (by rw [h]) else .isFalse (by intro he; cases he; exact h rfl)
    | .ok _, .error _ => .isFalse (by intro he; cases he)
    | .error _, .ok _ => .isFalse (by intro he; cases he)

/-- The message of the `Error` thrown by the source at each failure site. -/
def GenError.message : GenError → String
  | .missingInput => "A background image is required for this processing mode."
  | .backendRefused t => "API returned a text response instead of an image: " ++ t
  | .noImageProduced => "No image was generated by the API."

/-- JS `string.startsWith(pre)`, at the character level. -/
def jsStartsWith (s pre : String) : Bool := pre.data.isPrefixOf s.data

/-- First part that is inline data with an `image/` media type, in part order
(the inner loop `part.inlineData && part.inlineData.mimeType.startsWith('image/')`). -/
def firstImagePartOfParts (parts : List Part) : Option InlineData :=
  parts.findSome? fun p =>
    match p with
    | .inlineData d => if jsStartsWith d.mimeType "image/" then some d else none
    | .text _ => none

/-- First image part over the candidates in order (the nested
`for candidate ... for part ...` loops of the source). -/
def firstImagePart (r : GenerateContentResponse) : Option InlineData :=
  r.candidates.findSome? fun c => firstImagePartOfParts c.parts

/-- All response parts flattened in candidate-then-part order. -/
def flatParts (r : GenerateContentResponse) : List Part :=
  (r.candidates.map Candidate.parts).flatten

/-- Whether the response contains a text part anywhere. -/
def responseHasTextPart (r : GenerateContentResponse) : Bool :=
  r.candidates.any fun c => c.parts.any fun p =>
    match p with
    | .text _ => true
    | .inlineData _ => false

/-- The `data:$(mimeType);base64,$(base64Data)` result URL. -/
def dataUrl (d : InlineData) : String :=
  "data:" ++ d.mimeType ++ ";base64," ++ d.data

/-- Response consumption shared verbatim by `processCarImage` (lines 121-137)
and `correctImage` (lines 167-182): return the first image part as a data
URL; otherwise throw using `response.text` when it is truthy (JS: defined
and nonempty), else the generic no-image error. -/
def extractImageResult (r : GenerateContentResponse) : Except GenError String :=
  match firstImagePart r with
  | some d => .ok (dataUrl d)
  | none =>
      match r.text with
      | some t => if t = "" then .error .noImageProduced else .error (.backendRefused t)
      | none => .error .noImageProduced

/-- The pure pre-network stage of `processCarImage`: fail fast when a
background is required but absent, otherwise the parts array as sent
(for the two-image modes the prompt is `unshift`ed in front of the two
inline images; for tint-turntable-only the prompt then the single image). -/
def buildRequestParts (carImage : InlineData) (backgroundImage : Option InlineData)
    (mode : ProcessingMode) (options : ProcessingOptions) : Except GenError (List Part) :=
  match mode with
  | .tintTurntableOnly =>
      .ok [Part.text (buildPrompt .tintTurntableOnly options), Part.inlineData carImage]
  | _ =>
      match backgroundImage with
      | none => .error .missingInput
      | some bg =>
          .ok [Part.text (buildPrompt mode options), Part.inlineData carImage, Part.inlineData bg]

/-- Function `processCarImage`, with the backend's response passed explicitly:
if the pre-network stage fails no request is made and its error is the
result; otherwise the response is consumed by `extractImageResult`. -/
def processCarImage (carImage : InlineData) (backgroundImage : Option InlineData)
    (mode : ProcessingMode) (options : ProcessingOptions)
    (response : GenerateContentResponse) : Except GenError String :=
  match buildRequestParts carImage backgroundImage mode options with
  | .error e => .error e
  | .ok _ => extractImageResult response

/-- The refinement prompt of `correctImage`, split at `$(correctionPrompt)`. -/
def correctImagePromptPre : String :=
  "Based on the user\x27s feedback, please refine the provided image. The user\x27s instruction is: \""

def correctImagePromptPost : String :=
  "\". \n  \n  Your task is to apply this change subtly and realistically, maintaining the overall quality and composition of the image. \n  \n  The final output must be a single, high-resolution composite image, aiming for 3000 pixels on the longest side. Do not include any text, annotations, or borders. Only return the modified image."

/-- The request parts sent by `correctImage`. -/
def correctImageRequestParts (processedImage : InlineData) (correctionPrompt : String) :
    List Part :=
  [Part.text (correctImagePromptPre ++ correctionPrompt ++ correctImagePromptPost),
   Part.inlineData processedImage]

/-- Function `correctImage`, with the backend's response passed explicitly; its
response handling is the same code as in `processCarImage`. -/
def correctImage (processedImage : InlineData) (correctionPrompt : String)
    (response : GenerateContentResponse) : Except GenError String :=
  extractImageResult response

/-! ### App.tsx: batch orchestrator and job state machine

Each `setProcessedImages(prev => prev.map(...))` call site becomes a pure
function on the job list; the interleavings the event loop can produce
become a step relation. -/

/-- The submission gate of `handleProcessImages` (line 168), as the negation
of `carImages.length === 0 || (processingMode !== 'tint-turntable-only' &&
!backgroundImage)`. -/
def submitAccepted (carImageCount : Nat) (mode : ProcessingMode)
    (backgroundPresent : Bool) : Bool :=
  !(carImageCount == 0 || (mode != .tintTurntableOnly && !backgroundPresent))

/-- A freshly created job of `handleProcessImages` (lines 176-182):
`processedUrl: null`, `status: 'pending'`, no `error` field. -/
def createJob (id : String) (originalFile : JSFile) (originalUrl : String) : ProcessedImage :=
  { id := id, originalFile := originalFile, originalUrl := originalUrl,
    processedUrl := none, status := .pending, error := none }

/-- Batch creation: one pending job per selected car image. -/
def createBatch (inputs : List (String × JSFile × String)) : List ProcessedImage :=
  inputs.map fun i => createJob i.1 i.2.1 i.2.2

/-- Line 186: mark one job `processing` when its generation call starts. -/
def markProcessing (imageId : String) (s : List ProcessedImage) : List ProcessedImage :=
  s.map fun p => if p.id == imageId then { p with status := .processing } else p

/-- Lines 194 and 224: a generation (or refinement) call for `imageId`
resolved with `resultUrl`. -/
def markDone (imageId resultUrl : String) (s : List ProcessedImage) : List ProcessedImage :=
  s.map fun p =>
    if p.id == imageId then { p with status := .done, processedUrl := some resultUrl } else p

/-- Lines 198 and 229: a generation (or refinement) call for `imageId`
rejected with `errorMessage`; `processedUrl` is not touched. -/
def markError (imageId errorMessage : String) (s : List ProcessedImage) : List ProcessedImage :=
  s.map fun p =>
    if p.id == imageId then { p with status := .error, error := some errorMessage } else p

/-- Line 215: entering a refinement, the job becomes `processing` and its
`error` field is cleared (`error: undefined`). -/
def beginCorrection (imageId : String) (s : List ProcessedImage) : List ProcessedImage :=
  s.map fun p =>
    if p.id == imageId then { p with status := .processing, error := none } else p

/-- Line 207: `processedImages.find(p => p.id === imageId)`. -/
def findImage (s : List ProcessedImage) (imageId : String) : Option ProcessedImage :=
  s.find? fun p => p.id == imageId

/-- The gate of `handleCorrectImage` (line 209): the request is acted on
unless the job is missing or its `processedUrl` is null. -/
def correctionAccepted (s : List ProcessedImage) (imageId : String) : Bool :=
  match findImage s imageId with
  | some p => p.processedUrl.isSome
  | none => false

/-- The synchronous state effect of a refinement request: the early return
leaves the list unchanged; otherwise the job enters correction. -/
def handleCorrectImageBegin (s : List ProcessedImage) (imageId : String) :
    List ProcessedImage :=
  if correctionAccepted s imageId then beginCorrection imageId s else s

/-- One state change the app can perform on `processedImages`.  The
`generationSucceeded`/`generationFailed` steps are the shared `.then`/
`catch` update sites, used both by initial generation and by refinement. -/
inductive Step : List ProcessedImage → List ProcessedImage → Prop
  | submit (s : List ProcessedImage) (inputs : List (String × JSFile × String))
      (h : inputs ≠ []) : Step s (createBatch inputs)
  | start (s : List ProcessedImage) (imageId : String) :
      Step s (markProcessing imageId s)
  | generationSucceeded (s : List ProcessedImage) (imageId resultUrl : String) :
      Step s (markDone imageId resultUrl s)
  | generationFailed (s : List ProcessedImage) (imageId errorMessage : String) :
      Step s (markError imageId errorMessage s)
  | correctionRequested (s : List ProcessedImage) (imageId : String) :
      Step s (handleCorrectImageBegin s imageId)

/-- States of `processedImages` reachable from the initial empty list. -/
inductive Reachable : List ProcessedImage → Prop
  | init : Reachable []
  | step {s s' : List ProcessedImage} : Reachable s → Step s s' → Reachable s'

/-! ### App.tsx: export filename derivation

`getOutputFilename` uses JS `String.split` / `Array.pop` / `Array.join`;
these are embedded at the character-list level so the splitting can be
reasoned about. -/

/-- JS `string.split(sep)` for a single-character separator. -/
def jsSplitChar (sep : Char) : List Char → List (List Char)
  | [] => [[]]
  | c :: cs =>
      match jsSplitChar sep cs with
      | [] => [[]]
      | chunk :: rest =>
          if c == sep then [] :: chunk :: rest else (c :: chunk) :: rest

/-- JS `array.join(sep)` for a single-character separator. -/
def jsJoinChar (sep : Char) : List (List Char) → List Char
  | [] => []
  | [chunk] => chunk
  | chunk :: next :: rest => chunk ++ sep :: jsJoinChar sep (next :: rest)

/-- Function `getOutputFilename` (App.tsx lines 36-41) at the character level:
`parts.pop()` yields the last chunk (the would-be extension), the remaining
chunks re-join as the name, and a falsy (empty) extension falls back to
`"png"`. -/
def getOutputFilenameChars (originalName : List Char) : List Char :=
  let parts := jsSplitChar '.' originalName
  let extension := (parts.getLast?).getD []
  let name := jsJoinChar '.' parts.dropLast
  name ++ "-processed.".data ++ (if extension.isEmpty then "png".data else extension)

def getOutputFilename (originalName : String) : String :=
  String.mk (getOutputFilenameChars originalName.data)

/-! ### Auxiliary notions and lemmas -/

set_option maxRecDepth 400000

/-- Substring occurrence at the character level (used to state that a
clause does or does not appear in a built prompt). -/
def occursIn (pat : List Char) : List Char → Bool
  | [] => pat.isEmpty
  | c :: rest => pat.isPrefixOf (c :: rest) || occursIn pat rest

/-- Predicate `containsStr s pat` holds when `pat` occurs contiguously in `s`. -/
def containsStr (s pat : String) : Bool := occursIn pat.data s.data

theorem jsSplitChar_ne_nil (sep : Char) : ∀ l : List Char, jsSplitChar sep l ≠ []
  | [] => by simp [jsSplitChar]
  | c :: cs => by
      simp only [jsSplitChar]
      split
      · simp
      · split <;> simp

theorem jsSplitChar_append_sep (sep : Char) (a b : List Char) :
    jsSplitChar sep (a ++ sep :: b) = jsSplitChar sep a ++ jsSplitChar sep b := by
  induction a with
  | nil =>
      cases h : jsSplitChar sep b with
      | nil => exact absurd h (jsSplitChar_ne_nil sep b)
      | cons chunk rest => simp [jsSplitChar, h]
  | cons c cs ih =>
      cases h : jsSplitChar sep cs with
      | nil => exact absurd h (jsSplitChar_ne_nil sep cs)
      | cons chunk rest =>
          by_cases hc : c == sep <;>
            simp [jsSplitChar, List.cons_append, ih, h, hc]

theorem jsSplitChar_of_not_mem (sep : Char) (l : List Char) (h : sep ∉ l) :
    jsSplitChar sep l = [l] := by
  induction l with
  | nil => simp [jsSplitChar]
  | cons c cs ih =>
      have hc : ¬(c == sep) = true := by
        simp only [beq_iff_eq]
        intro hce
        exact h (hce ▸ List.mem_cons_self c cs)
      have hcs : sep ∉ cs := fun hm => h (List.mem_cons_of_mem c hm)
      simp [jsSplitChar, ih hcs, hc]

theorem jsJoinChar_jsSplitChar (sep : Char) (l : List Char) :
    jsJoinChar sep (jsSplitChar sep l) = l := by
  induction l with
  | nil => simp [jsSplitChar, jsJoinChar]
  | cons c cs ih =>
      cases h : jsSplitChar sep cs with
      | nil => exact absurd h (jsSplitChar_ne_nil sep cs)
      | cons chunk rest =>
          rw [h] at ih
          by_cases hc : c == sep
          · have hce : c = sep := by simpa [beq_iff_eq] using hc
            simp [jsSplitChar, h, hc, jsJoinChar, ih, hce]
          · cases rest with
            | nil =>
                simp only [jsJoinChar] at ih
                simp [jsSplitChar, h, hc, jsJoinChar, ih]
            | cons r rs =>
                simp only [jsJoinChar] at ih
                simp [jsSplitChar, h, hc, jsJoinChar, ih]

/-- The nested candidate/part loops find exactly the first image part of the
flattened part sequence. -/
theorem firstImagePart_eq_flat (r : GenerateContentResponse) :
    firstImagePart r = firstImagePartOfParts (flatParts r) := by
  obtain ⟨cs⟩ := r
  induction cs with
  | nil => rfl
  | cons c rest ih =>
      simp only [firstImagePart, flatParts, List.map_cons, List.flatten_cons,
        List.findSome?_cons, firstImagePartOfParts, List.findSome?_append] at ih ⊢
      cases h : List.findSome? (fun p =>
          match p with
          | .inlineData d => if jsStartsWith d.mimeType "image/" then some d else none
          | .text _ => none) c.parts with
      | some d => simp [h]
      | none => simpa [h, Option.or] using ih

/-! ### Claims -/

/-- Refutation of claim C7 as stated: a filename with no `.` does not map to
`<name>-processed.png`; JS `["photo"].pop()` returns `"photo"` (not
`undefined`), so the whole name becomes the extension and the basename is
empty. -/
theorem c7_counterexample :
    getOutputFilename "photo" = "-processed.photo" ∧
    getOutputFilename "photo" ≠ "photo-processed.png" := by
  constructor <;> decide

/-- C7 (amended): the export filename splits the original name at the last
`.` into `<basename>-processed.<extension>`; the `png` fallback applies when
the extension is empty (name ending in `.`), while a name with no `.` at all
yields `-processed.<name>` (the whole name is treated as the extension and
the basename is empty). -/
theorem c7_filename_derivation :
    (∀ base ext : List Char, '.' ∉ ext → ext ≠ [] →
        getOutputFilenameChars (base ++ '.' :: ext) =
          base ++ ("-processed.".data ++ ext)) ∧
    (∀ nm : List Char, '.' ∉ nm → nm ≠ [] →
        getOutputFilenameChars nm = "-processed.".data ++ nm) ∧
    (∀ base : List Char, getOutputFilenameChars (base ++ ['.']) =
        base ++ "-processed.png".data) := by
  refine ⟨?_, ?_, ?_⟩
  · intro base ext hmem hne
    simp only [getOutputFilenameChars, jsSplitChar_append_sep,
      jsSplitChar_of_not_mem '.' ext hmem]
    rw [List.getLast?_concat, List.dropLast_concat, jsJoinChar_jsSplitChar]
    simp [hne]
  · intro nm hmem hne
    simp only [getOutputFilenameChars, jsSplitChar_of_not_mem '.' nm hmem]
    simp [jsJoinChar, List.isEmpty_iff, hne]
  · intro base
    have h : jsSplitChar '.' (base ++ ['.']) = jsSplitChar '.' base ++ [[]] := by
      simpa using jsSplitChar_append_sep '.' base []
    simp only [getOutputFilenameChars, h]
    rw [List.getLast?_concat, List.dropLast_concat, jsJoinChar_jsSplitChar]
    simp

/-- Witness for `c7_filename_derivation` at `car.jpg`. -/
theorem c7_filename_derivation_witness :
    getOutputFilenameChars ("car".data ++ '.' :: "jpg".data) =
      "car".data ++ ("-processed.".data ++ "jpg".data) :=
  c7_filename_derivation.1 "car".data "jpg".data (by decide) (by decide)

/-- C5: for mode partial-wall with `floorEffect = red` and
`matchReflections = true` (any turntable tint, which is irrelevant to this
mode), the built prompt is exactly the fixed 5-step base, the red-floor
clause numbered 6, the reflections clause numbered 7, and the closing
resolution/no-text clause. -/
theorem c5_partial_wall_two_clauses (tint : TurntableTint) :
    buildPrompt .partialWall ⟨.red, true, tint⟩ =
      partialWallBasePrompt ++ numberedClause 6 floorRedClauseBody ++
        numberedClause 7 reflectionsClauseBody ++ closingClause := rfl

/-- Witness for `c5_partial_wall_two_clauses` at turntable tint `none`. -/
theorem c5_partial_wall_two_clauses_witness :
    buildPrompt .partialWall ⟨.red, true, .none⟩ =
      partialWallBasePrompt ++ numberedClause 6 floorRedClauseBody ++
        numberedClause 7 reflectionsClauseBody ++ closingClause :=
  c5_partial_wall_two_clauses .none

/-- C3: for any mode other than tint-turntable-only with an absent
background image, the pre-network stage already fails with `MissingInput`,
so `processCarImage` fails with it for every possible backend response
(no network call is consulted); for tint-turntable-only the absent
background is accepted (the request parts are produced) and batch
submission proceeds for any nonzero number of car images. -/
theorem c3_missing_background (carImage : InlineData) (mode : ProcessingMode)
    (options : ProcessingOptions) (response : GenerateContentResponse)
    (hmode : mode ≠ ProcessingMode.tintTurntableOnly) :
    buildRequestParts carImage none mode options = Except.error GenError.missingInput ∧
    processCarImage carImage none mode options response =
      Except.error GenError.missingInput ∧
    buildRequestParts carImage none ProcessingMode.tintTurntableOnly options =
      Except.ok [Part.text (buildPrompt ProcessingMode.tintTurntableOnly options),
        Part.inlineData carImage] ∧
    (∀ n : Nat, n ≠ 0 →
        submitAccepted n ProcessingMode.tintTurntableOnly false = true) := by
  refine ⟨?_, ?_, rfl, ?_⟩
  · cases mode <;> simp_all [buildRequestParts]
  · cases mode <;> simp_all [buildRequestParts, processCarImage]
  · intro n hn
    simp [submitAccepted, hn]

/-- Witness for `c3_missing_background` with mode `full` and a concrete
car payload. -/
theorem c3_missing_background_witness :
    buildRequestParts ⟨"image/png", "AAA"⟩ none ProcessingMode.full
        ⟨.none, false, .none⟩ = Except.error GenError.missingInput ∧
    processCarImage ⟨"image/png", "AAA"⟩ none ProcessingMode.full
        ⟨.none, false, .none⟩ ⟨[]⟩ = Except.error GenError.missingInput ∧
    buildRequestParts ⟨"image/png", "AAA"⟩ none ProcessingMode.tintTurntableOnly
        ⟨.none, false, .none⟩ =
      Except.ok [Part.text (buildPrompt ProcessingMode.tintTurntableOnly
        ⟨.none, false, .none⟩), Part.inlineData ⟨"image/png", "AAA"⟩] ∧
    (∀ n : Nat, n ≠ 0 →
        submitAccepted n ProcessingMode.tintTurntableOnly false = true) :=
  c3_missing_background ⟨"image/png", "AAA"⟩ ProcessingMode.full
    ⟨.none, false, .none⟩ ⟨[]⟩ (by decide)

/-- Refutation of claim C4 as stated: a response whose only part is a text
part with empty text contains a text part and no image part, yet the
operations fail with the generic `NoImageProduced` error, not with
`BackendRefused` carrying that text — the source's `if (textResponse)`
treats the empty string as falsy. -/
theorem c4_counterexample :
    responseHasTextPart ⟨[⟨[Part.text ""]⟩]⟩ = true ∧
    firstImagePart ⟨[⟨[Part.text ""]⟩]⟩ = none ∧
    extractImageResult ⟨[⟨[Part.text ""]⟩]⟩ = Except.error GenError.noImageProduced ∧
    (∀ t, extractImageResult ⟨[⟨[Part.text ""]⟩]⟩ ≠
        Except.error (GenError.backendRefused t)) := by
  refine ⟨rfl, rfl, rfl, ?_⟩
  intro t h
  cases h

/-- C4 (amended): when the response has no image part, generation and
refinement fail with `BackendRefused` carrying the response's text verbatim
when that text is present and nonempty, with `NoImageProduced` when no
parts are present at all (an empty text counts as absent), and they never
return a result in any no-image case. -/
theorem c4_no_image_part (r : GenerateContentResponse) :
    (∀ t, firstImagePart r = none → r.text = some t → t ≠ "" →
        (∀ (car bg : InlineData) (options : ProcessingOptions),
            processCarImage car (some bg) ProcessingMode.full options r =
              Except.error (GenError.backendRefused t)) ∧
        (∀ (img : InlineData) (correction : String),
            correctImage img correction r =
              Except.error (GenError.backendRefused t))) ∧
    ((r.candidates.all fun c => c.parts.isEmpty) = true →
        extractImageResult r = Except.error GenError.noImageProduced) ∧
    (firstImagePart r = none → ∀ s, extractImageResult r ≠ Except.ok s) := by
  refine ⟨?_, ?_, ?_⟩
  · intro t himg htext hne
    have hres : extractImageResult r = Except.error (GenError.backendRefused t) := by
      simp [extractImageResult, himg, htext, hne]
    exact ⟨fun car bg options => by simp [processCarImage, buildRequestParts, hres],
      fun img correction => by simp [correctImage, hres]⟩
  · intro hall
    simp only [List.all_eq_true, List.isEmpty_iff] at hall
    have h1 : firstImagePart r = none := by
      simp only [firstImagePart, List.findSome?_eq_none_iff]
      intro c hc
      simp [firstImagePartOfParts, hall c hc]
    have h2 : r.text = none := by
      unfold GenerateContentResponse.text
      cases hc : r.candidates with
      | nil => rfl
      | cons c rest =>
          have : c.parts = [] := hall c (by rw [hc]; exact List.mem_cons_self c rest)
          simp [this]
    simp [extractImageResult, h1, h2]
  · intro himg s
    simp only [extractImageResult, himg]
    cases r.text with
    | none => simp
    | some t =>
        by_cases ht : t = "" <;> simp [ht]

/-- Witness for `c4_no_image_part`: a text-only refusal surfaces as
`BackendRefused` with the backend's text. -/
theorem c4_no_image_part_witness :
    processCarImage ⟨"image/png", "AAA"⟩ (some ⟨"image/png", "BBB"⟩)
        ProcessingMode.full ⟨.none, false, .none⟩
        ⟨[⟨[Part.text "cannot comply"]⟩]⟩ =
      Except.error (GenError.backendRefused "cannot comply") :=
  ((c4_no_image_part ⟨[⟨[Part.text "cannot comply"]⟩]⟩).1 "cannot comply"
    rfl rfl (by decide)).1 ⟨"image/png", "AAA"⟩ ⟨"image/png", "BBB"⟩ ⟨.none, false, .none⟩

/-- C8: when the flattened parts contain an image part, generation and
refinement both return the data URL of the first image part in
candidate-then-part order, whatever text parts surround it. -/
theorem c8_first_image_part (r : GenerateContentResponse) (d : InlineData)
    (h : firstImagePartOfParts (flatParts r) = some d)
    (car bg img : InlineData) (options : ProcessingOptions) (correction : String) :
    extractImageResult r = Except.ok (dataUrl d) ∧
    processCarImage car (some bg) ProcessingMode.full options r =
      Except.ok (dataUrl d) ∧
    correctImage img correction r = Except.ok (dataUrl d) := by
  have h1 : firstImagePart r = some d := (firstImagePart_eq_flat r).trans h
  refine ⟨?_, ?_, ?_⟩ <;>
    simp [extractImageResult, processCarImage, buildRequestParts, correctImage, h1]

/-- Witness for `c8_first_image_part`: a text part ahead of the image part
does not change the selected image. -/
theorem c8_first_image_part_witness :
    extractImageResult
        ⟨[⟨[Part.text "note", Part.inlineData ⟨"image/png", "AAA"⟩,
            Part.inlineData ⟨"image/jpeg", "BBB"⟩]⟩]⟩ =
      Except.ok (dataUrl ⟨"image/png", "AAA"⟩) :=
  (c8_first_image_part
    ⟨[⟨[Part.text "note", Part.inlineData ⟨"image/png", "AAA"⟩,
        Part.inlineData ⟨"image/jpeg", "BBB"⟩]⟩]⟩ ⟨"image/png", "AAA"⟩ rfl
    ⟨"image/png", "C"⟩ ⟨"image/png", "D"⟩ ⟨"image/png", "E"⟩
    ⟨.none, false, .none⟩ "fix it").1



/-- C1 (amended): in every reachable state of the job list, a job whose
status is `done` has a non-null `processedUrl`.  The converse direction of
the claimed iff fails after a refinement attempt (see the counterexample):
a failed refinement leaves `processedUrl` non-null with status `error`. -/
theorem c1_done_has_result {s : List ProcessedImage} (h : Reachable s) :
    ∀ j ∈ s, j.status = ProcessingStatus.done → j.processedUrl ≠ none := by
  induction h with
  | init => intro j hj; simp at hj
  | step _ hs ih =>
      cases hs with
      | submit inputs hne =>
          intro j hj hdone
          simp only [createBatch, List.mem_map] at hj
          obtain ⟨i, _, rfl⟩ := hj
          simp [createJob] at hdone
      | start imageId =>
          intro j hj hdone
          simp only [markProcessing, List.mem_map] at hj
          obtain ⟨p, hp, rfl⟩ := hj
          by_cases hid : (p.id == imageId) = true
          · rw [if_pos hid] at hdone
            simp at hdone
          · rw [if_neg (by simp [hid])] at hdone ⊢
            exact ih p hp hdone
      | generationSucceeded imageId resultUrl =>
          intro j hj hdone
          simp only [markDone, List.mem_map] at hj
          obtain ⟨p, hp, rfl⟩ := hj
          by_cases hid : (p.id == imageId) = true
          · rw [if_pos hid]
            simp
          · rw [if_neg (by simp [hid])] at hdone ⊢
            exact ih p hp hdone
      | generationFailed imageId errorMessage =>
          intro j hj hdone
          simp only [markError, List.mem_map] at hj
          obtain ⟨p, hp, rfl⟩ := hj
          by_cases hid : (p.id == imageId) = true
          · rw [if_pos hid] at hdone
            simp at hdone
          · rw [if_neg (by simp [hid])] at hdone ⊢
            exact ih p hp hdone
      | correctionRequested imageId =>
          rename_i t hr
          intro j hj hdone
          by_cases hacc : correctionAccepted t imageId
          · unfold handleCorrectImageBegin at hj
            rw [if_pos hacc] at hj
            simp only [beginCorrection, List.mem_map] at hj
            obtain ⟨p, hp, rfl⟩ := hj
            by_cases hid : (p.id == imageId) = true
            · rw [if_pos hid] at hdone
              simp at hdone
            · rw [if_neg (by simp [hid])] at hdone ⊢
              exact ih p hp hdone
          · unfold handleCorrectImageBegin at hj
            rw [if_neg hacc] at hj
            exact ih j hj hdone

/-- Witness for `c1_done_has_result` at a reachable singleton batch whose
job finished successfully. -/
theorem c1_done_has_result_witness :
    (ProcessedImage.mk "a" ⟨"car.png"⟩ "blob:1" (some "u")
      ProcessingStatus.done none).processedUrl ≠ none := by
  have r1 : Reachable (createBatch [("a", ⟨"car.png"⟩, "blob:1")]) :=
    .step .init (.submit _ _ (by simp))
  have r2 := Reachable.step r1 (Step.start _ "a")
  have r3 := Reachable.step r2 (Step.generationSucceeded _ "a" "u")
  have e : markDone "a" "u" (markProcessing "a" (createBatch [("a", ⟨"car.png"⟩, "blob:1")])) =
      [ProcessedImage.mk "a" ⟨"car.png"⟩ "blob:1" (some "u") ProcessingStatus.done none] := by
    decide
  rw [e] at r3
  exact c1_done_has_result r3 _ (List.mem_singleton.mpr rfl) rfl

/-- Refutation of claim C1 as stated: after submit, successful generation,
refinement request and refinement failure, the reachable state holds a job
with status `error` and a non-null `processedUrl`, so non-null `processedUrl`
does not imply status `done`. -/
theorem c1_counterexample :
    Reachable [ProcessedImage.mk "a" ⟨"car.png"⟩ "blob:1"
      (some "data:image/png;base64,AAA") ProcessingStatus.error
      (some "Network error")] ∧
    (ProcessedImage.mk "a" ⟨"car.png"⟩ "blob:1" (some "data:image/png;base64,AAA")
      ProcessingStatus.error (some "Network error")).status ≠ ProcessingStatus.done ∧
    (ProcessedImage.mk "a" ⟨"car.png"⟩ "blob:1" (some "data:image/png;base64,AAA")
      ProcessingStatus.error (some "Network error")).processedUrl ≠ none := by
  refine ⟨?_, by decide, by decide⟩
  have r1 : Reachable (createBatch [("a", ⟨"car.png"⟩, "blob:1")]) :=
    .step .init (.submit _ _ (by simp))
  have r2 := Reachable.step r1 (Step.start _ "a")
  have r3 := Reachable.step r2 (Step.generationSucceeded _ "a" "data:image/png;base64,AAA")
  have r4 := Reachable.step r3 (Step.correctionRequested _ "a")
  have r5 := Reachable.step r4 (Step.generationFailed _ "a" "Network error")
  have e : markError "a" "Network error"
      (handleCorrectImageBegin
        (markDone "a" "data:image/png;base64,AAA"
          (markProcessing "a" (createBatch [("a", ⟨"car.png"⟩, "blob:1")]))) "a") =
      [ProcessedImage.mk "a" ⟨"car.png"⟩ "blob:1" (some "data:image/png;base64,AAA")
        ProcessingStatus.error (some "Network error")] := by
    decide
  rw [e] at r5
  exact r5



/-- C2 (amended): a refinement request is rejected (the job list is left
unchanged) exactly when the job is missing or its `processedUrl` is null —
which covers jobs in `error` from a failed initial generation; a job whose
`processedUrl` is non-null (however its status reads) is accepted and
re-enters `processing`. -/
theorem c2_refinement_gate (s : List ProcessedImage) (imageId : String) :
    (∀ j, findImage s imageId = some j → j.processedUrl = none →
        handleCorrectImageBegin s imageId = s) ∧
    (findImage s imageId = none → handleCorrectImageBegin s imageId = s) ∧
    (∀ j u, findImage s imageId = some j → j.processedUrl = some u →
        handleCorrectImageBegin s imageId = beginCorrection imageId s) := by
  refine ⟨?_, ?_, ?_⟩
  · intro j hfind hurl
    simp [handleCorrectImageBegin, correctionAccepted, hfind, hurl]
  · intro hfind
    simp [handleCorrectImageBegin, correctionAccepted, hfind]
  · intro j u hfind hurl
    simp [handleCorrectImageBegin, correctionAccepted, hfind, hurl]

/-- Witness for `c2_refinement_gate`: a job in `error` from initial
generation (null `processedUrl`) is left unchanged by a refinement
request. -/
theorem c2_refinement_gate_witness :
    handleCorrectImageBegin
        [ProcessedImage.mk "b" ⟨"x.png"⟩ "blob:2" none ProcessingStatus.error
          (some "boom")] "b" =
      [ProcessedImage.mk "b" ⟨"x.png"⟩ "blob:2" none ProcessingStatus.error
        (some "boom")] :=
  (c2_refinement_gate _ "b").1
    (ProcessedImage.mk "b" ⟨"x.png"⟩ "blob:2" none ProcessingStatus.error
      (some "boom")) rfl rfl

/-- Refutation of claim C2 as stated: a reachable job in status `error`
after a failed refinement retains a non-null `processedUrl`, so a further
refinement request is accepted and moves it out of `error` into
`processing`. -/
theorem c2_counterexample :
    Reachable [ProcessedImage.mk "a" ⟨"car.png"⟩ "blob:1"
      (some "data:image/png;base64,AAA") ProcessingStatus.error (some "boom")] ∧
    (ProcessedImage.mk "a" ⟨"car.png"⟩ "blob:1" (some "data:image/png;base64,AAA")
      ProcessingStatus.error (some "boom")).status = ProcessingStatus.error ∧
    Step [ProcessedImage.mk "a" ⟨"car.png"⟩ "blob:1"
        (some "data:image/png;base64,AAA") ProcessingStatus.error (some "boom")]
      [ProcessedImage.mk "a" ⟨"car.png"⟩ "blob:1"
        (some "data:image/png;base64,AAA") ProcessingStatus.processing none] ∧
    (ProcessedImage.mk "a" ⟨"car.png"⟩ "blob:1" (some "data:image/png;base64,AAA")
      ProcessingStatus.processing none).status ≠ ProcessingStatus.error := by
  refine ⟨?_, rfl, ?_, by decide⟩
  · have r1 : Reachable (createBatch [("a", ⟨"car.png"⟩, "blob:1")]) :=
      .step .init (.submit _ _ (by simp))
    have r2 := Reachable.step r1 (Step.start _ "a")
    have r3 := Reachable.step r2 (Step.generationSucceeded _ "a" "data:image/png;base64,AAA")
    have r4 := Reachable.step r3 (Step.correctionRequested _ "a")
    have r5 := Reachable.step r4 (Step.generationFailed _ "a" "boom")
    have e : markError "a" "boom"
        (handleCorrectImageBegin
          (markDone "a" "data:image/png;base64,AAA"
            (markProcessing "a" (createBatch [("a", ⟨"car.png"⟩, "blob:1")]))) "a") =
        [ProcessedImage.mk "a" ⟨"car.png"⟩ "blob:1" (some "data:image/png;base64,AAA")
          ProcessingStatus.error (some "boom")] := by
      decide
    rw [e] at r5
    exact r5
  · have hstep := Step.correctionRequested
      [ProcessedImage.mk "a" ⟨"car.png"⟩ "blob:1" (some "data:image/png;base64,AAA")
        ProcessingStatus.error (some "boom")] "a"
    have e : handleCorrectImageBegin
        [ProcessedImage.mk "a" ⟨"car.png"⟩ "blob:1" (some "data:image/png;base64,AAA")
          ProcessingStatus.error (some "boom")] "a" =
        [ProcessedImage.mk "a" ⟨"car.png"⟩ "blob:1" (some "data:image/png;base64,AAA")
          ProcessingStatus.processing none] := by
      decide
    rw [e] at hstep
    exact hstep

/-- C6: a refinement on a `done` job — whether it later succeeds
(`markDone`) or fails (`markError`) — leaves every sibling job (different
id) entirely unchanged: same status, result handle and error message. -/
theorem c6_refinement_frame (s : List ProcessedImage)
    (imageId resultUrl errorMessage : String) (t : ProcessedImage)
    (hfind : findImage s imageId = some t) (hdone : t.status = ProcessingStatus.done)
    (i : Nat) (j : ProcessedImage) (hj : s[i]? = some j) (hne : j.id ≠ imageId) :
    (markDone imageId resultUrl (handleCorrectImageBegin s imageId))[i]? = some j ∧
    (markError imageId errorMessage (handleCorrectImageBegin s imageId))[i]? = some j := by
  by_cases hacc : correctionAccepted s imageId <;>
    constructor <;>
      simp [handleCorrectImageBegin, hacc, markDone, markError, beginCorrection,
        List.getElem?_map, hj, hne]

/-- Witness for `c6_refinement_frame` on the spec's sample scenario:
three `done` jobs, job 2 refined, job 1 untouched on both outcomes. -/
theorem c6_refinement_frame_witness :
    (markDone "2" "data:new" (handleCorrectImageBegin
        [ProcessedImage.mk "1" ⟨"a.png"⟩ "b1" (some "r1") ProcessingStatus.done none,
         ProcessedImage.mk "2" ⟨"b.png"⟩ "b2" (some "r2") ProcessingStatus.done none,
         ProcessedImage.mk "3" ⟨"c.png"⟩ "b3" (some "r3") ProcessingStatus.done none]
        "2"))[0]? =
      some (ProcessedImage.mk "1" ⟨"a.png"⟩ "b1" (some "r1") ProcessingStatus.done none) ∧
    (markError "2" "boom" (handleCorrectImageBegin
        [ProcessedImage.mk "1" ⟨"a.png"⟩ "b1" (some "r1") ProcessingStatus.done none,
         ProcessedImage.mk "2" ⟨"b.png"⟩ "b2" (some "r2") ProcessingStatus.done none,
         ProcessedImage.mk "3" ⟨"c.png"⟩ "b3" (some "r3") ProcessingStatus.done none]
        "2"))[0]? =
      some (ProcessedImage.mk "1" ⟨"a.png"⟩ "b1" (some "r1") ProcessingStatus.done none) :=
  c6_refinement_frame
    [ProcessedImage.mk "1" ⟨"a.png"⟩ "b1" (some "r1") ProcessingStatus.done none,
     ProcessedImage.mk "2" ⟨"b.png"⟩ "b2" (some "r2") ProcessingStatus.done none,
     ProcessedImage.mk "3" ⟨"c.png"⟩ "b3" (some "r3") ProcessingStatus.done none]
    "2" "data:new" "boom"
    (ProcessedImage.mk "2" ⟨"b.png"⟩ "b2" (some "r2") ProcessingStatus.done none)
    (by decide) rfl 0
    (ProcessedImage.mk "1" ⟨"a.png"⟩ "b1" (some "r1") ProcessingStatus.done none)
    (by decide) (by decide)

/-- C10: when a refinement of a `done` job fails, the job keeps its
previous `processedUrl` unchanged while its status becomes `error` with
the failure message; the prior result is never discarded. -/
theorem c10_failed_refinement_preserves_result (s : List ProcessedImage)
    (imageId errorMessage : String) (i : Nat) (t : ProcessedImage)
    (ht : s[i]? = some t) (hid : t.id = imageId)
    (hdone : t.status = ProcessingStatus.done) :
    (markError imageId errorMessage (beginCorrection imageId s))[i]? =
      some { t with status := ProcessingStatus.error, error := some errorMessage } ∧
    ({ t with status := ProcessingStatus.error, error := some errorMessage } : ProcessedImage).processedUrl = t.processedUrl := by
  refine ⟨?_, rfl⟩
  simp [markError, beginCorrection, List.getElem?_map, ht, hid]

/-- Witness for `c10_failed_refinement_preserves_result` on a singleton
batch. -/
theorem c10_failed_refinement_preserves_result_witness :
    (markError "a" "boom" (beginCorrection "a"
        [ProcessedImage.mk "a" ⟨"car.png"⟩ "b1" (some "r1")
          ProcessingStatus.done none]))[0]? =
      some (ProcessedImage.mk "a" ⟨"car.png"⟩ "b1" (some "r1")
        ProcessingStatus.error (some "boom")) ∧
    (ProcessedImage.mk "a" ⟨"car.png"⟩ "b1" (some "r1")
      ProcessingStatus.error (some "boom")).processedUrl = some "r1" :=
  c10_failed_refinement_preserves_result _ "a" "boom" 0
    (ProcessedImage.mk "a" ⟨"car.png"⟩ "b1" (some "r1") ProcessingStatus.done none)
    rfl rfl rfl




/-- The full-mode prompt is one constant; a pattern absent from it is absent
for every option value. -/
theorem notContains_full_of (body : String)
    (h : containsStr fullPrompt body = false) (o : ProcessingOptions) :
    containsStr (buildPrompt .full o) body = false := h

/-- The turntable-tint prompt only depends on the tint option; a pattern
absent from its three possible values is always absent. -/
theorem notContains_turntableTint_of (body : String)
    (h1 : containsStr (turntableTintBasePrompt ++ closingClause) body = false)
    (h2 : containsStr (turntableTintBasePrompt ++ numberedClause 6 turntableRedClauseBody ++
        closingClause) body = false)
    (h3 : containsStr (turntableTintBasePrompt ++ numberedClause 6 turntableYellowClauseBody ++
        closingClause) body = false)
    (o : ProcessingOptions) :
    containsStr (buildPrompt .turntableTint o) body = false := by
  obtain ⟨fe, mr, tt⟩ := o
  cases tt
  · exact h1
  · exact h2
  · exact h3

/-- The tint-turntable-only prompt only depends on the tint option; a
pattern absent from its three possible values is always absent. -/
theorem notContains_tintTurntableOnly_of (body : String)
    (h1 : containsStr (tintTurntableOnlyPromptPre ++ "none" ++ tintTurntableOnlyPromptPost)
        body = false)
    (h2 : containsStr (tintTurntableOnlyPromptPre ++ "red" ++ tintTurntableOnlyPromptPost)
        body = false)
    (h3 : containsStr (tintTurntableOnlyPromptPre ++ "yellow" ++ tintTurntableOnlyPromptPost)
        body = false)
    (o : ProcessingOptions) :
    containsStr (buildPrompt .tintTurntableOnly o) body = false := by
  obtain ⟨fe, mr, tt⟩ := o
  cases tt
  · exact h1
  · exact h2
  · exact h3

/-- The partial-wall prompt only depends on the floor effect and the
reflections flag; a pattern absent from its eight possible values is always
absent. -/
theorem notContains_partialWall_of (body : String)
    (h1 : containsStr (partialWallBasePrompt ++ closingClause) body = false)
    (h2 : containsStr (partialWallBasePrompt ++ numberedClause 6 reflectionsClauseBody ++
        closingClause) body = false)
    (h3 : containsStr (partialWallBasePrompt ++ numberedClause 6 floorDesaturateClauseBody ++
        closingClause) body = false)
    (h4 : containsStr (partialWallBasePrompt ++ numberedClause 6 floorDesaturateClauseBody ++
        numberedClause 7 reflectionsClauseBody ++ closingClause) body = false)
    (h5 : containsStr (partialWallBasePrompt ++ numberedClause 6 floorRedClauseBody ++
        closingClause) body = false)
    (h6 : containsStr (partialWallBasePrompt ++ numberedClause 6 floorRedClauseBody ++
        numberedClause 7 reflectionsClauseBody ++ closingClause) body = false)
    (h7 : containsStr (partialWallBasePrompt ++ numberedClause 6 floorYellowClauseBody ++
        closingClause) body = false)
    (h8 : containsStr (partialWallBasePrompt ++ numberedClause 6 floorYellowClauseBody ++
        numberedClause 7 reflectionsClauseBody ++ closingClause) body = false)
    (o : ProcessingOptions) :
    containsStr (buildPrompt .partialWall o) body = false := by
  obtain ⟨fe, mr, tt⟩ := o
  cases fe <;> cases mr
  · exact h1
  · exact h2
  · exact h3
  · exact h4
  · exact h5
  · exact h6
  · exact h7
  · exact h8

/-- C9: for every option configuration, clauses of options irrelevant to
the active mode never occur in the built prompt: no floor-effect or
reflections clause under full, turntable-tint or tint-turntable-only, and
no turntable-tint clause under full or partial-wall. -/
theorem c9_irrelevant_options_excluded (options : ProcessingOptions) :
    (containsStr (buildPrompt .full options) floorDesaturateClauseBody = false ∧
     containsStr (buildPrompt .full options) floorRedClauseBody = false ∧
     containsStr (buildPrompt .full options) floorYellowClauseBody = false ∧
     containsStr (buildPrompt .full options) reflectionsClauseBody = false) ∧
    (containsStr (buildPrompt .turntableTint options) floorDesaturateClauseBody = false ∧
     containsStr (buildPrompt .turntableTint options) floorRedClauseBody = false ∧
     containsStr (buildPrompt .turntableTint options) floorYellowClauseBody = false ∧
     containsStr (buildPrompt .turntableTint options) reflectionsClauseBody = false) ∧
    (containsStr (buildPrompt .tintTurntableOnly options) floorDesaturateClauseBody = false ∧
     containsStr (buildPrompt .tintTurntableOnly options) floorRedClauseBody = false ∧
     containsStr (buildPrompt .tintTurntableOnly options) floorYellowClauseBody = false ∧
     containsStr (buildPrompt .tintTurntableOnly options) reflectionsClauseBody = false) ∧
    (containsStr (buildPrompt .full options) turntableRedClauseBody = false ∧
     containsStr (buildPrompt .full options) turntableYellowClauseBody = false) ∧
    (containsStr (buildPrompt .partialWall options) turntableRedClauseBody = false ∧
     containsStr (buildPrompt .partialWall options) turntableYellowClauseBody = false) :=
  ⟨⟨notContains_full_of _ (by decide) options,
    notContains_full_of _ (by decide) options,
    notContains_full_of _ (by decide) options,
    notContains_full_of _ (by decide) options⟩,
   ⟨notContains_turntableTint_of _ (by decide) (by decide) (by decide) options,
    notContains_turntableTint_of _ (by decide) (by decide) (by decide) options,
    notContains_turntableTint_of _ (by decide) (by decide) (by decide) options,
    notContains_turntableTint_of _ (by decide) (by decide) (by decide) options⟩,
   ⟨notContains_tintTurntableOnly_of _ (by decide) (by decide) (by decide) options,
    notContains_tintTurntableOnly_of _ (by decide) (by decide) (by decide) options,
    notContains_tintTurntableOnly_of _ (by decide) (by decide) (by decide) options,
    notContains_tintTurntableOnly_of _ (by decide) (by decide) (by decide) options⟩,
   ⟨notContains_full_of _ (by decide) options,
    notContains_full_of _ (by decide) options⟩,
   ⟨notContains_partialWall_of _ (by decide) (by decide) (by decide) (by decide)
      (by decide) (by decide) (by decide) (by decide) options,
    notContains_partialWall_of _ (by decide) (by decide) (by decide) (by decide)
      (by decide) (by decide) (by decide) (by decide) options⟩⟩


/-- Witness for `c9_irrelevant_options_excluded` at the default options. -/
theorem c9_irrelevant_options_excluded_witness :
    (containsStr (buildPrompt .full (⟨.none, false, .none⟩ : ProcessingOptions)) floorDesaturateClauseBody = false ∧
     containsStr (buildPrompt .full (⟨.none, false, .none⟩ : ProcessingOptions)) floorRedClauseBody = false ∧
     containsStr (buildPrompt .full (⟨.none, false, .none⟩ : ProcessingOptions)) floorYellowClauseBody = false ∧
     containsStr (buildPrompt .full (⟨.none, false, .none⟩ : ProcessingOptions)) reflectionsClauseBody = false) ∧
    (containsStr (buildPrompt .turntableTint (⟨.none, false, .none⟩ : ProcessingOptions)) floorDesaturateClauseBody = false ∧
     containsStr (buildPrompt .turntableTint (⟨.none, false, .none⟩ : ProcessingOptions)) floorRedClauseBody = false ∧
     containsStr (buildPrompt .turntableTint (⟨.none, false, .none⟩ : ProcessingOptions)) floorYellowClauseBody = false ∧
     containsStr (buildPrompt .turntableTint (⟨.none, false, .none⟩ : ProcessingOptions)) reflectionsClauseBody = false) ∧
    (containsStr (buildPrompt .tintTurntableOnly (⟨.none, false, .none⟩ : ProcessingOptions)) floorDesaturateClauseBody = false ∧
     containsStr (buildPrompt .tintTurntableOnly (⟨.none, false, .none⟩ : ProcessingOptions)) floorRedClauseBody = false ∧
     containsStr (buildPrompt .tintTurntableOnly (⟨.none, false, .none⟩ : ProcessingOptions)) floorYellowClauseBody = false ∧
     containsStr (buildPrompt .tintTurntableOnly (⟨.none, false, .none⟩ : ProcessingOptions)) reflectionsClauseBody = false) ∧
    (containsStr (buildPrompt .full (⟨.none, false, .none⟩ : ProcessingOptions)) turntableRedClauseBody = false ∧
     containsStr (buildPrompt .full (⟨.none, false, .none⟩ : ProcessingOptions)) turntableYellowClauseBody = false) ∧
    (containsStr (buildPrompt .partialWall (⟨.none, false, .none⟩ : ProcessingOptions)) turntableRedClauseBody = false ∧
     containsStr (buildPrompt .partialWall (⟨.none, false, .none⟩ : ProcessingOptions)) turntableYellowClauseBody = false) :=
  c9_irrelevant_options_excluded ⟨.none, false, .none⟩


end AutoShade
